import Mathlib

/-!
Verification of the capability-orchestration core of the platform engine
(`devops/capabilities/`): the shared `CapabilityContext`, the capability
`register`/lookup table, the Foundation provisioner, and the `s3` capability
handler, together with the orchestrator algorithm of the design document.

Python dictionaries are embedded as association lists with
update-in-place-or-append semantics (`dictSet`), external cloud resource
constructors as symbolic `Value.res` terms recording the constructor name and
the arguments the capability layer passes, and exceptions as `Except`.
-/

namespace PlatformEngine

/-- Untyped Python values as they flow through the capability context:
`null` is Python `None`, `res ctor args` is the (symbolic) result of calling an
external resource constructor, `attr v f` is attribute access `v.f`, and
`starSuffix v` is the interpolation `f"{v}/*"` used for S3 object ARNs. -/
inductive Value where
  | null : Value
  | str (s : String) : Value
  | bool (b : Bool) : Value
  | list (xs : List Value) : Value
  | dict (kvs : List (String × Value)) : Value
  | res (ctor : String) (args : List Value) : Value
  | attr (base : Value) (field : String) : Value
  | starSuffix (base : Value) : Value

/-- `True` exactly for Python `None`; embeds `x is None` tests. -/
def Value.isNull : Value → Bool
  | .null => true
  | _ => false

/-- Lookup in a Python dict modelled as an association list (first match). -/
def lookupKey {V : Type} : List (String × V) → String → Option V
  | [], _ => Option.none
  | (k2, v) :: rest, k => if k2 = k then some v else lookupKey rest k

/-- Python `d[k] = v`: overwrite the existing binding in place, else append. -/
def dictSet {V : Type} : List (String × V) → String → V → List (String × V)
  | [], k, v => [(k, v)]
  | (k2, v2) :: rest, k, v =>
      if k2 = k then (k, v) :: rest else (k2, v2) :: dictSet rest k v

/-- Python `k in d`. -/
def containsKey {V : Type} (m : List (String × V)) (k : String) : Bool :=
  (lookupKey m k).isSome

/-- The fields of `devops/config.py`'s `PlatformConfig` that the embedded
capability code reads (`service_name`); the remaining, purely configuration
fields are not consulted by the orchestration core. -/
structure PlatformConfig where
  service_name : String

/-- The fields of `devops/shared/lookups.py`'s `SharedInfrastructure` that the
embedded capability code reads. -/
structure SharedInfrastructure where
  vpc_id : String
  vpc_cidr : String
  aws_account_id : String
  private_subnet_ids : List String

/-- `devops/capabilities/context.py`: the context passed to every capability
handler, generic over the stored value type.  `_outputs` and `_exports` are
the two dict namespaces. -/
structure CapabilityContext (V : Type) where
  config : PlatformConfig
  infra : SharedInfrastructure
  outputs : List (String × V)
  exportsMap : List (String × V)

/-- `set(key, value)`: store a value for later use by other capabilities
(unconditional dict overwrite). -/
def CapabilityContext.set {V : Type} (ctx : CapabilityContext V) (key : String) (value : V) :
    CapabilityContext V :=
  { ctx with outputs := dictSet ctx.outputs key value }

/-- `get(key, default)`: retrieve a value; return the default if missing. -/
def CapabilityContext.get {V : Type} (ctx : CapabilityContext V) (key : String) (default : V) : V :=
  (lookupKey ctx.outputs key).getD default

/-- The single-quote character (Char 39), written via `Char.ofNat`. -/
def sqChar : Char := Char.ofNat 39

/-- The double-quote character. -/
def dqChar : Char := Char.ofNat 34

/-- The backslash character. -/
def bsChar : Char := Char.ofNat 92

/-- Lowercase hex digit, for control-character escapes. -/
def hexDigit (n : Nat) : Char :=
  if n < 10 then Char.ofNat (48 + n) else Char.ofNat (87 + n)

/-- Unicode codepoints above U+007F that are not printable in Python's sense
(category Cc, Cf, Zs, Zl, Zp, Cs, Co, plus the noncharacters), which CPython
`repr` therefore escapes: the C1 controls and no-break space, soft hyphen,
the Arabic/Syriac/Mongolian format controls, the Unicode space separators,
the line/paragraph separators and bidi/join controls, the ideographic space,
surrogates, private-use areas, the byte-order mark, interlinear annotation
controls, tag characters, musical/ductus format controls, and the
`...FFFE`/`...FFFF` noncharacters of every plane.  Unassigned (Cn)
codepoints — also escaped by CPython, but a moving target of the Unicode
database — are not tabulated; every theorem that relies on `repr` keeping a
character literal therefore restricts itself to printable ASCII, where this
predicate is exact. -/
def nonPrintableHigh (n : Nat) : Bool :=
  decide (
    (128 ≤ n ∧ n ≤ 160) ∨ n = 173 ∨
    (1536 ≤ n ∧ n ≤ 1541) ∨ n = 1564 ∨ n = 1757 ∨ n = 1807 ∨
    (2192 ≤ n ∧ n ≤ 2193) ∨ n = 2274 ∨ n = 5760 ∨ n = 6158 ∨
    (8192 ≤ n ∧ n ≤ 8207) ∨ (8232 ≤ n ∧ n ≤ 8239) ∨ (8287 ≤ n ∧ n ≤ 8303) ∨
    n = 12288 ∨ (55296 ≤ n ∧ n ≤ 57343) ∨ (57344 ≤ n ∧ n ≤ 63743) ∨
    (64976 ≤ n ∧ n ≤ 65007) ∨ n = 65279 ∨ (65529 ≤ n ∧ n ≤ 65531) ∨
    n = 69821 ∨ n = 69837 ∨ (78896 ≤ n ∧ n ≤ 78911) ∨
    (113824 ≤ n ∧ n ≤ 113827) ∨ (119155 ≤ n ∧ n ≤ 119162) ∨
    n = 917505 ∨ (917536 ≤ n ∧ n ≤ 917631) ∨
    (983040 ≤ n) ∨ n % 65536 ≥ 65534)

/-- Python's printability test (`str.isprintable` per character), the test
CPython `repr` uses to decide whether to keep a character literal: exact for
ASCII — printable iff in U+0020..U+007E — and given by `nonPrintableHigh`
above that. -/
def pyPrintable (c : Char) : Bool :=
  if c.toNat < 128 then decide (32 ≤ c.toNat ∧ c.toNat ≠ 127)
  else !(nonPrintableHigh c.toNat)

/-- How CPython `repr` renders one character of a string delimited by
`delim`: backslash and the delimiter are backslash-escaped, newline,
carriage return and tab use their named escapes, other ASCII control
characters use `\xHH` escapes, printable characters are kept as-is, and the
remaining non-printable characters use `\xHH`, `\uHHHH` or `\UHHHHHHHH`
escapes by codepoint size. -/
def pyEscape (delim : Char) (c : Char) : List Char :=
  if c = bsChar then [bsChar, bsChar]
  else if c = delim then [bsChar, delim]
  else if c = Char.ofNat 10 then [bsChar, Char.ofNat 110]
  else if c = Char.ofNat 13 then [bsChar, Char.ofNat 114]
  else if c = Char.ofNat 9 then [bsChar, Char.ofNat 116]
  else if c.toNat < 32 ∨ c.toNat = 127 then
    [bsChar, Char.ofNat 120, hexDigit (c.toNat / 16), hexDigit (c.toNat % 16)]
  else if pyPrintable c then [c]
  else if c.toNat < 256 then
    [bsChar, Char.ofNat 120, hexDigit (c.toNat / 16), hexDigit (c.toNat % 16)]
  else if c.toNat < 65536 then
    [bsChar, Char.ofNat 117, hexDigit (c.toNat / 4096 % 16), hexDigit (c.toNat / 256 % 16),
     hexDigit (c.toNat / 16 % 16), hexDigit (c.toNat % 16)]
  else
    [bsChar, Char.ofNat 85, hexDigit (c.toNat / 268435456 % 16),
     hexDigit (c.toNat / 16777216 % 16), hexDigit (c.toNat / 1048576 % 16),
     hexDigit (c.toNat / 65536 % 16), hexDigit (c.toNat / 4096 % 16),
     hexDigit (c.toNat / 256 % 16), hexDigit (c.toNat / 16 % 16), hexDigit (c.toNat % 16)]

/-- CPython `repr` delimiter choice for a string: double quotes when the
string contains a single quote but no double quote, single quotes otherwise. -/
def pyDelim (s : String) : Char :=
  if s.data.contains sqChar ∧ ¬ s.data.contains dqChar then dqChar else sqChar

/-- Python `repr(s)` for a string `s` (the `{key!r}` interpolation of
`context.py` line 35). -/
def pyReprString (s : String) : String :=
  let delim := pyDelim s
  String.mk (delim :: s.data.flatMap (pyEscape delim) ++ [delim])

/-- Insert into an ascending list of strings (helper for `sortedJoin`). -/
def insertSorted (s : String) : List String → List String
  | [] => [s]
  | t :: ts => if t < s then t :: insertSorted s ts else s :: t :: ts

/-- Python `sorted` on a list of strings (ascending code-point order). -/
def sortStrings : List String → List String
  | [] => []
  | s :: ss => insertSorted s (sortStrings ss)

/-- `", ".join(sorted(keys)) or "(none)"` from `context.py` line 33: the
joined sorted key list, with the Python falsy-`or` collapsing an empty join
to the `"(none)"` marker. -/
def availableKeysStr {V : Type} (outputs : List (String × V)) : String :=
  let joined := String.intercalate ", " (sortStrings (outputs.map Prod.fst))
  if joined = "" then "(none)" else joined

/-- `require(key)` (`context.py` lines 30-37): retrieve a value; fail with a
`RuntimeError` carrying the missing key (in `repr` form) and the available
keys if it is absent. -/
def CapabilityContext.require {V : Type} (ctx : CapabilityContext V) (key : String) :
    Except String V :=
  match lookupKey ctx.outputs key with
  | some v => Except.ok v
  | Option.none =>
      Except.error ("missing required key: " ++ pyReprString key ++ ". Available keys: "
        ++ availableKeysStr ctx.outputs)

/-- `export(key, value)` (`context.py` lines 39-41): register a stack export;
last write wins.  (Named `exportValue` because `export` is a Lean keyword.) -/
def CapabilityContext.exportValue {V : Type} (ctx : CapabilityContext V) (key : String)
    (value : V) : CapabilityContext V :=
  { ctx with exportsMap := dictSet ctx.exportsMap key value }

/-- The `exports` property (`context.py` lines 43-46): the contents of the
returned snapshot `dict(self._exports)`.  (The aliasing aspect of the copy is
modelled separately with an explicit heap, below.) -/
def CapabilityContext.exports {V : Type} (ctx : CapabilityContext V) : List (String × V) :=
  ctx.exportsMap

/-- `devops/capabilities/registry.py`: execution phase order for capabilities
(lower runs first); an `IntEnum` in the source. -/
inductive Phase where
  | FOUNDATION : Phase
  | INFRASTRUCTURE : Phase
  | COMPUTE : Phase
  | NETWORKING : Phase
deriving DecidableEq, Repr

/-- The integer value of each `Phase` member (`IntEnum` values 0-3). -/
def Phase.toNat : Phase → Nat
  | .FOUNDATION => 0
  | .INFRASTRUCTURE => 1
  | .COMPUTE => 2
  | .NETWORKING => 3

/-- `registry.py`'s `CapabilityDef`: registered capability with handler,
phase, and optional dependencies; generic over the handler representation. -/
structure CapabilityDef (H : Type) where
  handler : H
  phase : Phase
  requires : List String
deriving DecidableEq

/-- The process-wide `CAPABILITIES` table, passed explicitly. -/
abbrev Registry (H : Type) : Type := List (String × CapabilityDef H)

/-- `register(name, phase, requires=None)` applied to a handler `fn`
(`registry.py` lines 39-54): insert the definition into the table, storing
`requires or []`.  The decorator's global mutation of `CAPABILITIES` is
modelled by explicit table passing. -/
def register {H : Type} (name : String) (phase : Phase) (requires : Option (List String))
    (fn : H) (table : Registry H) : Registry H :=
  dictSet table name { handler := fn, phase := phase, requires := requires.getD [] }

/-- A Python heap of dict objects, for the aliasing behaviour of the
`exports` property: an address is an index into the list of live dicts. -/
abbrev PyHeap (V : Type) : Type := List (List (String × V))

/-- A context as resident on the heap model: the address of its `_exports`
dict.  (Only the export namespace needs heap reasoning.) -/
structure HeapContext where
  exportsAddr : Nat

/-- Read the dict object at an address. -/
def heapRead {V : Type} (h : PyHeap V) (a : Nat) : List (String × V) :=
  h.getD a []

/-- Allocate a fresh dict object; returns the new heap and the new address. -/
def heapAlloc {V : Type} (h : PyHeap V) (d : List (String × V)) : PyHeap V × Nat :=
  (h ++ [d], h.length)

/-- The `exports` property under the heap model: `return dict(self._exports)`
(`context.py` line 46) allocates a fresh dict holding a copy of the entries
of the context's `_exports` dict. -/
def exportsSnapshot {V : Type} (h : PyHeap V) (c : HeapContext) : PyHeap V × Nat :=
  heapAlloc h (heapRead h c.exportsAddr)

/-- An in-place mutation `d[k] = v` of the dict object at address `a`. -/
def heapWriteKey {V : Type} (h : PyHeap V) (a : Nat) (k : String) (v : V) : PyHeap V :=
  h.set a (dictSet (heapRead h a) k v)

/-- `devops/networking/security_groups.py` `create_ecs_security_group`:
symbolic resource recording the arguments the capability layer passes
(the Pulumi provider argument, constant for a run, is left implicit). -/
def create_ecs_security_group (service_name vpc_id vpc_cidr : String) : Value :=
  Value.res "create_ecs_security_group" [Value.str service_name, Value.str vpc_id, Value.str vpc_cidr]

/-- `security_groups.py` `create_agent_security_group`. -/
def create_agent_security_group (service_name vpc_id : String) : Value :=
  Value.res "create_agent_security_group" [Value.str service_name, Value.str vpc_id]

/-- `security_groups.py` `create_database_security_group`
(args: service name, vpc, `control_plane_sg_id`, `agent_sg_id`). -/
def create_database_security_group (service_name vpc_id : String)
    (control_plane_sg_id agent_sg_id : Value) : Value :=
  Value.res "create_database_security_group"
    [Value.str service_name, Value.str vpc_id, control_plane_sg_id, agent_sg_id]

/-- `security_groups.py` `create_efs_security_group`
(args: service name, vpc, `control_plane_sg_id`, `agent_sg_id`). -/
def create_efs_security_group (service_name vpc_id : String)
    (control_plane_sg_id agent_sg_id : Value) : Value :=
  Value.res "create_efs_security_group"
    [Value.str service_name, Value.str vpc_id, control_plane_sg_id, agent_sg_id]

/-- `devops/iam/roles.py` `create_task_roles`: returns the
`(task_role, execution_role)` pair. -/
def create_task_roles (service_name : String) : Value × Value :=
  (Value.res "task_role" [Value.str service_name],
   Value.res "execution_role" [Value.str service_name])

/-- `roles.py` `create_lambda_execution_role`. -/
def create_lambda_execution_role (service_name : String) : Value :=
  Value.res "lambda_execution_role" [Value.str service_name]

/-- Foundation's `create_agentcore_runtime_role` (imported by
`foundation.py`; the construction itself is external). -/
def create_agentcore_runtime_role (service_name : String) : Value :=
  Value.res "agentcore_runtime_role" [Value.str service_name]

/-- Foundation's `create_agentcore_memory_role`. -/
def create_agentcore_memory_role (service_name : String) : Value :=
  Value.res "agentcore_memory_role" [Value.str service_name]

/-- `devops/capabilities/foundation.py` `provision_foundation`: create shared
security groups and IAM roles based on the declared spec sections, writing
their identifiers into the context.  Each `if` branch of the source appears
in order; `ctx.get(key)` calls use Python's `None` default (`Value.null`). -/
def provision_foundation (spec_sections : List (String × Value)) (ctx : CapabilityContext Value) :
    CapabilityContext Value :=
  let declared := spec_sections.map Prod.fst
  let service_name := ctx.config.service_name
  let vpc_id := ctx.infra.vpc_id
  let vpc_cidr := ctx.infra.vpc_cidr
  let ctx :=
    if declared.contains "compute" ∨ declared.contains "lambda" then
      let compute_sg := create_ecs_security_group service_name vpc_id vpc_cidr
      (ctx.set "security_groups.compute" compute_sg).set "security_groups.compute.id"
        (Value.attr compute_sg "id")
    else ctx
  let ctx :=
    if declared.contains "database" ∨ declared.contains "cache" ∨ declared.contains "storage" then
      let agent_sg := create_agent_security_group service_name vpc_id
      ctx.set "security_groups.agent.id" (Value.attr agent_sg "id")
    else ctx
  let ctx :=
    if declared.contains "database" ∨ declared.contains "cache" then
      let db_sg := create_database_security_group service_name vpc_id
        (ctx.get "security_groups.compute.id" Value.null)
        (ctx.get "security_groups.agent.id" Value.null)
      ctx.set "security_groups.database.id" (Value.attr db_sg "id")
    else ctx
  let ctx :=
    if declared.contains "storage" then
      let efs_sg := create_efs_security_group service_name vpc_id
        (ctx.get "security_groups.compute.id" Value.null)
        (ctx.get "security_groups.agent.id" Value.null)
      ctx.set "security_groups.efs.id" (Value.attr efs_sg "id")
    else ctx
  let ctx :=
    if declared.contains "compute" then
      let roles := create_task_roles service_name
      (ctx.set "iam.task_role" roles.1).set "iam.exec_role" roles.2
    else ctx
  let ctx :=
    if declared.contains "lambda" then
      ctx.set "iam.lambda_execution_role" (create_lambda_execution_role service_name)
    else ctx
  let ctx :=
    if declared.contains "agentcoreRuntime" then
      (ctx.set "iam.agentcore_runtime_role" (create_agentcore_runtime_role service_name)).set
        "iam.agentcore_memory_role" (create_agentcore_memory_role service_name)
    else ctx
  ctx

/-- A fresh per-run context, as the orchestrator constructs it. -/
def initCtx (cfg : PlatformConfig) (infra : SharedInfrastructure) : CapabilityContext Value :=
  { config := cfg, infra := infra, outputs := [], exportsMap := [] }

/-- Python `d.get(k, dflt)` on an untyped `Value` dict. -/
def dget (d : Value) (k : String) (dflt : Value) : Value :=
  match d with
  | .dict kvs => (lookupKey kvs k).getD dflt
  | _ => dflt

/-- Python `s.replace(a, b)` for single characters. -/
def replaceChar (s : String) (a b : Char) : String :=
  String.mk (s.data.map fun c => if c = a then b else c)

/-- One bucket entry of the `s3` section (already schema-validated input);
the field defaults mirror the handler's `.get(key, default)` defaults. -/
structure BucketConfig where
  name : String
  versioning : Bool := false
  encryption : String := "AES256"
  lifecycleRules : List Value := []

/-- The `s3` capability section: `section_config.get("buckets") or []`. -/
structure S3Config where
  buckets : List BucketConfig := []

/-- The dict the `s3` handler builds from one entry of `lifecycleRules`
(`s3.py` lines 39-44). -/
def mapLifecycleRule (rule : Value) : Value :=
  Value.dict
    [("prefix", dget rule "prefix" (Value.str "")),
     ("transition_to_ia", dget rule "transitionToIA" Value.null),
     ("expiration_days", dget rule "expirationDays" Value.null)]

/-- `devops/storage/s3.py` `create_s3_bucket` as a symbolic resource; the
`bucket` attribute of the result is the real bucket name, the `arn` attribute
its ARN. -/
def create_s3_bucket (service_name bucket_name : String) (versioning : Bool)
    (encryption : String) (lifecycle_rules : Value) : Value :=
  Value.res "create_s3_bucket"
    [Value.str service_name, Value.str bucket_name, Value.bool versioning,
     Value.str encryption, lifecycle_rules]

/-- `s3.py` `_grant_s3_access`: the `pulumi_aws.iam.RolePolicy` resource
attaching an inline policy on `role` whose `Resource` list is
`arns + [f"{arn}/*" for arn in arns]`. -/
def grant_s3_access (role : Value) (bucket_arns : List Value)
    (service_name role_label : String) : Value :=
  Value.res "RolePolicy"
    [Value.str (service_name ++ "_s3_" ++ role_label ++ "_policy"),
     Value.attr role "name",
     Value.dict
       [("Version", Value.str "2012-10-17"),
        ("Statement", Value.list
          [Value.dict
            [("Effect", Value.str "Allow"),
             ("Action", Value.str "s3:*"),
             ("Resource", Value.list (bucket_arns ++ bucket_arns.map Value.starSuffix))]])]]

/-- The `create_s3_bucket` call the handler makes for one bucket entry
(`s3.py` lines 34-53): the real name is the account-prefixed logical name. -/
def mkBucketValue (service_name aws_account_id : String) (bucket_cfg : BucketConfig) : Value :=
  let lifecycle_rules := bucket_cfg.lifecycleRules.map mapLifecycleRule
  create_s3_bucket service_name (aws_account_id ++ "-" ++ bucket_cfg.name) bucket_cfg.versioning
    bucket_cfg.encryption
    (if lifecycle_rules.isEmpty then Value.null else Value.list lifecycle_rules)

/-- The body of the handler's `for bucket_cfg in buckets_config` loop
(`s3.py` lines 34-63); the accumulator carries the context, the trace of
created resources, `bucket_arns`, and `bucket_env_vars`. -/
def s3_bucket_step (aws_account_id service_name : String)
    (acc : CapabilityContext Value × List Value × List Value × List (String × Value))
    (bucket_cfg : BucketConfig) :
    CapabilityContext Value × List Value × List Value × List (String × Value) :=
  let c := acc.1
  let tr := acc.2.1
  let arns := acc.2.2.1
  let envs := acc.2.2.2
  let logical_name := bucket_cfg.name
  let bucket := mkBucketValue service_name aws_account_id bucket_cfg
  let c := (c.set ("s3.buckets." ++ logical_name ++ ".arn") (Value.attr bucket "arn")).set
    ("s3.buckets." ++ logical_name ++ ".name") (Value.attr bucket "bucket")
  let export_key := "s3_bucket_" ++ replaceChar logical_name (Char.ofNat 45) (Char.ofNat 95)
  let c := c.exportValue export_key (Value.attr bucket "bucket")
  let env_key := "S3_BUCKET_" ++ replaceChar logical_name.toUpper (Char.ofNat 45) (Char.ofNat 95)
  (c, tr ++ [bucket], arns ++ [Value.attr bucket "arn"],
    dictSet envs env_key (Value.attr bucket "bucket"))

/-- `devops/capabilities/s3.py` `s3_handler`: provision S3 buckets and grant
IAM access to the compute task role when present.  Besides the updated
context it returns the trace of resources it constructed, in order. -/
def s3_handler (section_config : S3Config) (ctx : CapabilityContext Value) :
    CapabilityContext Value × List Value :=
  let buckets_config := section_config.buckets
  if buckets_config.isEmpty then (ctx, [])
  else
    let aws_account_id := ctx.infra.aws_account_id
    let service_name := ctx.config.service_name
    let folded := buckets_config.foldl (s3_bucket_step aws_account_id service_name)
      (ctx, [], [], [])
    let ctx1 := folded.1
    let trace := folded.2.1
    let bucket_arns := folded.2.2.1
    let bucket_env_vars := folded.2.2.2
    let ctx2 := (ctx1.set "s3.bucket_arns" (Value.list bucket_arns)).set "s3.bucket_env_vars"
      (Value.dict bucket_env_vars)
    let task_role := ctx2.get "iam.task_role" Value.null
    if task_role.isNull then (ctx2, trace)
    else (ctx2, trace ++ [grant_s3_access task_role bucket_arns service_name "task"])

/-- Whether a trace entry is an IAM `RolePolicy` attachment. -/
def isRolePolicyRes : Value → Bool
  | .res "RolePolicy" _ => true
  | _ => false

/-- The ARNs of the `create_s3_bucket` resources occurring in a trace. -/
def createdBucketArns (tr : List Value) : List Value :=
  tr.filterMap fun v =>
    match v with
    | .res "create_s3_bucket" args => some (Value.attr (Value.res "create_s3_bucket" args) "arn")
    | _ => Option.none

/-- The `Resource` list of the first policy statement of a `RolePolicy`. -/
def policyResources (v : Value) : Value :=
  match v with
  | .res "RolePolicy" [_, _, doc] =>
      match dget doc "Statement" Value.null with
      | .list (st :: _) => dget st "Resource" Value.null
      | _ => Value.null
  | _ => Value.null

/-- The `role` argument of a `RolePolicy` resource (the source passes
`role=role.name`, so this is the name attribute of the role the policy is
attached to). -/
def policyRole (v : Value) : Value :=
  match v with
  | .res "RolePolicy" [_, r, _] => r
  | _ => Value.null

/-- Tags standing for the twelve handler functions registered at module load
(one `@register` call per capability module under `devops/capabilities/`). -/
inductive HandlerTag where
  | compute | cache | storage | database | dynamodb | s3 | serviceDiscovery
  | lambdaFunctions | agentcoreRuntime | eventbridge | triggers | webhookGateway
deriving DecidableEq, Repr

/-- The `CAPABILITIES` table as populated by the module-load `@register`
calls of the capability modules (name, phase, and requires exactly as in the
sources; `requires` is omitted everywhere except `lambda`). -/
def registeredCapabilities : Registry HandlerTag :=
  register "compute" Phase.COMPUTE Option.none HandlerTag.compute
  (register "cache" Phase.INFRASTRUCTURE Option.none HandlerTag.cache
  (register "storage" Phase.INFRASTRUCTURE Option.none HandlerTag.storage
  (register "database" Phase.INFRASTRUCTURE Option.none HandlerTag.database
  (register "dynamodb" Phase.INFRASTRUCTURE Option.none HandlerTag.dynamodb
  (register "s3" Phase.INFRASTRUCTURE Option.none HandlerTag.s3
  (register "serviceDiscovery" Phase.INFRASTRUCTURE Option.none HandlerTag.serviceDiscovery
  (register "lambda" Phase.COMPUTE (some ["storage"]) HandlerTag.lambdaFunctions
  (register "agentcoreRuntime" Phase.COMPUTE Option.none HandlerTag.agentcoreRuntime
  (register "eventbridge" Phase.COMPUTE Option.none HandlerTag.eventbridge
  (register "triggers" Phase.COMPUTE Option.none HandlerTag.triggers
  (register "webhookGateway" Phase.COMPUTE Option.none HandlerTag.webhookGateway [])))))))))))

/-- The active capability set: declared names intersected with the registry
(orchestrator step 2). -/
def activeNames {H : Type} (reg : Registry H) (sections : List (String × Value)) : List String :=
  (sections.filter fun kv => (lookupKey reg kv.1).isSome).map Prod.fst

/-- Modelled from the spec: the Orchestrator entry point of design-document
section 4.5 is not among the repository sources (only its collaborators —
registry, context, foundation, and the handlers — are under `devops/`); this
is its pre-flight validation, step 3: "for every active capability, for
every name in its `requires` list, fail the entire run before any
provisioning if that name is not also in the active set".  Returns the first
violating `(capability, missing requirement)` pair, if any. -/
def unmetRequirement {H : Type} (active : List String) (reg : Registry H) :
    Option (String × String) :=
  active.findSome? fun n =>
    match lookupKey reg n with
    | some d => (d.requires.find? fun r => !(active.contains r)).map fun r => (n, r)
    | Option.none => Option.none

/-- Modelled from the spec: orchestrator steps 2-5 of design-document section
4.5 (the entry point itself is missing from the sources).  Resolve the
declared sections against the registry, validate `requires` preconditions
(failing the run before any provisioning), invoke the Foundation provisioner
once, then invoke each active capability's handler in ascending phase order
`INFRASTRUCTURE, COMPUTE, NETWORKING`.  The result carries the final context
and the concatenated resource trace of the handlers; an `error` result means
the run aborted with nothing provisioned and nothing published. -/
def orchestrate {H : Type} (reg : Registry H)
    (runHandler : H → Value → CapabilityContext Value → CapabilityContext Value × List Value)
    (sections : List (String × Value)) (ctx0 : CapabilityContext Value) :
    Except String (CapabilityContext Value × List Value) :=
  let active := sections.filter fun kv => (lookupKey reg kv.1).isSome
  match unmetRequirement (activeNames reg sections) reg with
  | some nr =>
      Except.error ("capability " ++ pyReprString nr.1 ++ " requires " ++ pyReprString nr.2
        ++ ", which is not declared")
  | Option.none =>
      let ctx1 := provision_foundation active ctx0
      let phaseLoop := [Phase.INFRASTRUCTURE, Phase.COMPUTE, Phase.NETWORKING].foldl
        (fun (acc : CapabilityContext Value × List Value) ph =>
          active.foldl (fun acc2 kv =>
            match lookupKey reg kv.1 with
            | some d =>
                if d.phase = ph then
                  let r := runHandler d.handler kv.2 acc2.1
                  (r.1, acc2.2 ++ r.2)
                else acc2
            | Option.none => acc2) acc) (ctx1, [])
      Except.ok phaseLoop

/-- Whether `hay` starts with `needle` (character lists). -/
def listStartsWith : List Char → List Char → Bool
  | [], _ => true
  | _ :: _, [] => false
  | c :: cs, d :: ds => c == d && listStartsWith cs ds

/-- Whether `needle` occurs contiguously inside `hay` (Python `in` on
strings, at the character-list level). -/
def listContainsSub (needle : List Char) : List Char → Bool
  | [] => listStartsWith needle []
  | d :: ds => listStartsWith needle (d :: ds) || listContainsSub needle ds

/-- Keys made only of printable ASCII characters (U+0020..U+007E) other
than the backslash, and not containing both kinds of quote: Python `repr`
keeps every character of such a key literal.  Restricted to ASCII because
`repr` escapes every non-printable character and, beyond ASCII,
printability is a Unicode-database question (`pyPrintable` is exact only on
ASCII); every dotted-path key the engine uses is in this set. -/
def pySafeKeyChars (k : String) : Bool :=
  decide ((∀ c ∈ k.data, 32 ≤ c.toNat ∧ c.toNat < 127 ∧ c ≠ bsChar) ∧
          ¬(sqChar ∈ k.data ∧ dqChar ∈ k.data))

/-- Concrete shared infrastructure for witness runs. -/
def demoInfra : SharedInfrastructure :=
  { vpc_id := "vpc-0abc", vpc_cidr := "10.0.0.0/16", aws_account_id := "470935583836",
    private_subnet_ids := ["subnet-1", "subnet-2"] }

/-- Concrete platform configuration for witness runs. -/
def demoConfig : PlatformConfig := { service_name := "agent-factory" }

/-- A fresh run context over `Value`. -/
def demoCtx : CapabilityContext Value := initCtx demoConfig demoInfra

/-- A fresh context storing natural numbers (the context is value-agnostic). -/
def emptyCtxNat : CapabilityContext Nat :=
  { config := demoConfig, infra := demoInfra, outputs := [], exportsMap := [] }

/-- The key consisting of one newline character. -/
def newlineKey : String := String.mk [Char.ofNat 10]

/-- `True` when `require key` fails on this context. -/
def requireFails {V : Type} (ctx : CapabilityContext V) (key : String) : Bool :=
  match ctx.require key with
  | Except.error _ => true
  | Except.ok _ => false

/-- `True` when `require key` either succeeds or fails with a message
containing the literal key. -/
def requireMsgContainsKey {V : Type} (ctx : CapabilityContext V) (key : String) : Bool :=
  match ctx.require key with
  | Except.error e => listContainsSub key.data e.data
  | Except.ok _ => true

/-- A context in which Foundation has already stored the compute task role
(declared set containing `compute`). -/
def demoTaskCtx : CapabilityContext Value :=
  demoCtx.set "iam.task_role" (create_task_roles "agent-factory").1

/-- A concrete bucket entry for witness runs. -/
def demoBucket : BucketConfig := ⟨"agent-factory-state", false, "AES256", []⟩

/-- A handler interpretation that provisions nothing (handlers are
irrelevant to runs that abort during validation). -/
def trivialRunHandler : HandlerTag → Value → CapabilityContext Value →
    CapabilityContext Value × List Value :=
  fun _ _ c => (c, [])

theorem lookupKey_dictSet_self {V : Type} (m : List (String × V)) (k : String) (v : V) :
    lookupKey (dictSet m k v) k = some v := by
  induction m with
  | nil => simp [dictSet, lookupKey]
  | cons kv rest ih =>
      obtain ⟨k2, v2⟩ := kv
      by_cases h : k2 = k
      · simp [dictSet, lookupKey, h]
      · simp [dictSet, lookupKey, h, ih]

theorem lookupKey_dictSet_ne {V : Type} (m : List (String × V)) (k k2 : String) (v : V)
    (h : k ≠ k2) : lookupKey (dictSet m k v) k2 = lookupKey m k2 := by
  induction m with
  | nil => simp [dictSet, lookupKey, h]
  | cons kv rest ih =>
      obtain ⟨k3, v3⟩ := kv
      by_cases h3 : k3 = k
      · subst h3
        simp [dictSet, lookupKey, h]
      · simp [dictSet, lookupKey, h3, ih]

theorem listStartsWith_self_append (p r : List Char) : listStartsWith p (p ++ r) = true := by
  induction p with
  | nil => simp [listStartsWith]
  | cons c cs ih => simp [listStartsWith, ih]

theorem listContainsSub_of_startsWith (k h : List Char) (hs : listStartsWith k h = true) :
    listContainsSub k h = true := by
  cases h <;> simp [listContainsSub, hs]

theorem listContainsSub_append_mid (a k b : List Char) :
    listContainsSub k (a ++ (k ++ b)) = true := by
  induction a with
  | nil => exact listContainsSub_of_startsWith _ _ (listStartsWith_self_append k b)
  | cons c cs ih => simp [listContainsSub, ih]

theorem string_data_append (a b : String) : (a ++ b).data = a.data ++ b.data := by
  cases a
  cases b
  rfl

theorem pyEscape_safe (delim c : Char) (h1 : 32 ≤ c.toNat) (h2 : c.toNat < 127)
    (h3 : c ≠ bsChar) (h4 : c ≠ delim) : pyEscape delim c = [c] := by
  have h10 : c ≠ Char.ofNat 10 := by
    intro he
    rw [he] at h1
    exact absurd h1 (by decide)
  have h13 : c ≠ Char.ofNat 13 := by
    intro he
    rw [he] at h1
    exact absurd h1 (by decide)
  have h9 : c ≠ Char.ofNat 9 := by
    intro he
    rw [he] at h1
    exact absurd h1 (by decide)
  have hctl : ¬(c.toNat < 32 ∨ c.toNat = 127) := by omega
  have hprint : pyPrintable c = true := by
    rw [pyPrintable, if_pos (by omega)]
    exact decide_eq_true_eq.mpr ⟨h1, by omega⟩
  rw [pyEscape, if_neg h3, if_neg h4, if_neg h10, if_neg h13, if_neg h9, if_neg hctl,
    if_pos hprint]

theorem flatMap_pyEscape_safe (delim : Char) (l : List Char)
    (h : ∀ c ∈ l, pyEscape delim c = [c]) : l.flatMap (pyEscape delim) = l := by
  induction l with
  | nil => rfl
  | cons c cs ih =>
      have hc := h c (List.mem_cons_self c cs)
      have hrest : ∀ d ∈ cs, pyEscape delim d = [d] := fun d hd => h d (List.mem_cons_of_mem c hd)
      simp [List.flatMap_cons, hc, ih hrest]

theorem char_contains_iff_mem (l : List Char) (c : Char) : l.contains c = true ↔ c ∈ l := by
  simp

theorem pyReprString_safe (k : String) (h : pySafeKeyChars k = true) :
    pyReprString k = String.mk (pyDelim k :: k.data ++ [pyDelim k]) := by
  rw [pySafeKeyChars, decide_eq_true_iff] at h
  obtain ⟨hall, hq⟩ := h
  have hesc : ∀ c ∈ k.data, pyEscape (pyDelim k) c = [c] := by
    intro c hc
    obtain ⟨h1, h2, h3⟩ := hall c hc
    refine pyEscape_safe _ _ h1 h2 h3 ?_
    rw [pyDelim]
    by_cases hd : k.data.contains sqChar ∧ ¬ k.data.contains dqChar
    · rw [if_pos hd]
      intro he
      have hmem : dqChar ∈ k.data := he ▸ hc
      exact hd.2 ((char_contains_iff_mem _ _).mpr hmem)
    · rw [if_neg hd]
      intro he
      have hsq : sqChar ∈ k.data := he ▸ hc
      have hcont : k.data.contains sqChar = true := (char_contains_iff_mem _ _).mpr hsq
      have hdq : k.data.contains dqChar = true := by
        by_contra hnd
        exact hd ⟨hcont, fun hx => hnd hx⟩
      exact hq ⟨hsq, (char_contains_iff_mem _ _).mp hdq⟩
  rw [pyReprString, flatMap_pyEscape_safe _ _ hesc]

theorem getD_append_lt {α : Type} (l1 l2 : List α) (a : Nat) (d : α) (h : a < l1.length) :
    (l1 ++ l2).getD a d = l1.getD a d := by
  induction l1 generalizing a with
  | nil => simp at h
  | cons x xs ih =>
      cases a with
      | zero => simp [List.getD]
      | succ n =>
          simp only [List.cons_append, List.getD_cons_succ]
          exact ih n (by simpa using h)

theorem getD_set_ne {α : Type} (l : List α) (a b : Nat) (x : α) (d : α) (h : a ≠ b) :
    (l.set a x).getD b d = l.getD b d := by
  induction l generalizing a b with
  | nil => simp [List.set]
  | cons y ys ih =>
      cases a with
      | zero =>
          cases b with
          | zero => exact absurd rfl h
          | succ m => simp [List.set, List.getD_cons_succ]
      | succ n =>
          cases b with
          | zero => simp [List.set, List.getD_cons_zero]
          | succ m =>
              simp only [List.set, List.getD_cons_succ]
              exact ih n m (fun he => h (by rw [he]))

theorem getD_append_length {α : Type} (l : List α) (x d : α) :
    (l ++ [x]).getD l.length d = x := by
  induction l with
  | nil => simp [List.getD]
  | cons y ys ih => simp [List.getD_cons_succ, ih]

/-- Claim C7: Context key/value semantics: `get(k, d)` returns `d` while `k` is
unset; after `set(k, v)`, `get(k, d)` returns `v`; after a subsequent
`set(k, v2)`, `get(k, d)` returns `v2` — unconditional overwrite, no error
in any case. -/
theorem context_get_set_overwrite {V : Type} (ctx : CapabilityContext V) (k : String)
    (v v2 d : V) (h : containsKey ctx.outputs k = false) :
    ctx.get k d = d ∧ (ctx.set k v).get k d = v ∧ ((ctx.set k v).set k v2).get k d = v2 := by
  refine ⟨?_, ?_, ?_⟩
  · have hl : lookupKey ctx.outputs k = Option.none := by
      cases hx : lookupKey ctx.outputs k with
      | none => rfl
      | some w => rw [containsKey, hx] at h; simp at h
    rw [CapabilityContext.get, hl]
    rfl
  · rw [CapabilityContext.get, CapabilityContext.set, lookupKey_dictSet_self]
    rfl
  · rw [CapabilityContext.get, CapabilityContext.set, CapabilityContext.set,
      lookupKey_dictSet_self]
    rfl

/-- Concrete instance of the C7 theorem on an empty Nat-valued context. -/
theorem context_get_set_overwrite_witness :
    containsKey emptyCtxNat.outputs "security_groups.compute.id" = false ∧
    (emptyCtxNat.get "security_groups.compute.id" 0 = 0 ∧
     (emptyCtxNat.set "security_groups.compute.id" 7).get "security_groups.compute.id" 0 = 7 ∧
     ((emptyCtxNat.set "security_groups.compute.id" 7).set "security_groups.compute.id" 8).get
       "security_groups.compute.id" 0 = 8) :=
  ⟨rfl, context_get_set_overwrite emptyCtxNat "security_groups.compute.id" 7 8 0 rfl⟩

/-- Claim C8: Registry semantics: after `register(n, p, r)` the table maps `n` to a
definition with exactly phase `p` and requires `r` (empty when omitted), and
a second `register` with the same name unconditionally overwrites the prior
entry — last registration wins, no error. -/
theorem registry_register_lookup_overwrite {H : Type} (tbl : Registry H) (n : String)
    (p p2 : Phase) (r r2 : Option (List String)) (f f2 : H) :
    lookupKey (register n p r f tbl) n = some ⟨f, p, r.getD []⟩ ∧
    lookupKey (register n p2 r2 f2 (register n p r f tbl)) n = some ⟨f2, p2, r2.getD []⟩ := by
  constructor
  · rw [register]
    exact lookupKey_dictSet_self _ _ _
  · rw [register, register]
    exact lookupKey_dictSet_self _ _ _

/-- Claim C10: Namespace separation: `set` leaves the export map (and the
`exports` snapshot) unchanged, `export` leaves the outputs map unchanged,
and `get`/`require` results are unaffected by `export` — so `set` never
makes a key visible through `exports`, and `export` never makes a key
visible through `get` or `require`. -/
theorem context_namespace_separation {V : Type} (ctx : CapabilityContext V) (k k2 : String)
    (v d : V) :
    (ctx.set k v).exportsMap = ctx.exportsMap ∧
    (ctx.set k v).exports = ctx.exports ∧
    (ctx.exportValue k v).outputs = ctx.outputs ∧
    (ctx.exportValue k v).get k2 d = ctx.get k2 d ∧
    (ctx.exportValue k v).require k2 = ctx.require k2 :=
  ⟨rfl, rfl, rfl, rfl, rfl⟩

/-- Claim C2: Foundation with declared set exactly `{"compute"}` writes
`security_groups.compute.id`, `iam.task_role` and `iam.exec_role`, and
writes neither `security_groups.agent.id` nor `security_groups.database.id`. -/
theorem foundation_compute_only_keys (cfg : PlatformConfig) (infra : SharedInfrastructure)
    (c : Value) :
    let out := (provision_foundation [("compute", c)] (initCtx cfg infra)).outputs
    containsKey out "security_groups.compute.id" = true ∧
    containsKey out "iam.task_role" = true ∧
    containsKey out "iam.exec_role" = true ∧
    containsKey out "security_groups.agent.id" = false ∧
    containsKey out "security_groups.database.id" = false :=
  ⟨rfl, rfl, rfl, rfl, rfl⟩

/-- Claim C3: Foundation with declared set `{"compute", "storage"}` additionally
writes `security_groups.agent.id` and `security_groups.efs.id`, and the EFS
security-group creation call receives as its `control_plane_sg_id` argument
exactly the value an earlier decision-table row stored under
`security_groups.compute.id`. -/
theorem foundation_compute_storage_efs_wiring (cfg : PlatformConfig)
    (infra : SharedInfrastructure) (c1 c2 : Value) :
    let out := (provision_foundation [("compute", c1), ("storage", c2)] (initCtx cfg infra)).outputs
    containsKey out "security_groups.agent.id" = true ∧
    containsKey out "security_groups.efs.id" = true ∧
    ∃ cp ag, lookupKey out "security_groups.compute.id" = some cp ∧
      lookupKey out "security_groups.efs.id" =
        some (Value.attr (create_efs_security_group cfg.service_name infra.vpc_id cp ag) "id") :=
  ⟨rfl, rfl,
   Value.attr (create_ecs_security_group cfg.service_name infra.vpc_id infra.vpc_cidr) "id",
   Value.attr (create_agent_security_group cfg.service_name infra.vpc_id) "id",
   rfl, rfl⟩

/-- Claim C5, counterexample: with zero buckets configured the `s3` handler returns
early: its export map stays empty — no export key at all is written, so in
particular no export holds an empty bucket-name list — and its resource
trace is empty (no IAM attachment). -/
theorem s3_zero_buckets_export_counterexample :
    (s3_handler ⟨[]⟩ demoCtx).1.exportsMap = [] ∧ (s3_handler ⟨[]⟩ demoCtx).2 = [] :=
  ⟨rfl, rfl⟩

/-- Claim C5, amended: with zero buckets configured the `s3` handler completes
without error, performs no IAM policy attachment and creates no resource,
and leaves the context — outputs and exports alike — completely unchanged:
it exports nothing rather than an empty bucket-name list. -/
theorem s3_zero_buckets_no_effect (ctx : CapabilityContext Value) :
    s3_handler ⟨[]⟩ ctx = (ctx, []) := rfl

/-- Claim C9: the `exports` property returns a defensive copy: writing a key into
the dict object it returns changes neither the context's internal export
dict nor the contents returned by a subsequent call to `exports`. -/
theorem exports_defensive_copy {V : Type} (h : PyHeap V) (c : HeapContext) (k : String) (v : V)
    (hlt : c.exportsAddr < h.length) :
    heapRead (heapWriteKey (exportsSnapshot h c).1 (exportsSnapshot h c).2 k v) c.exportsAddr
      = heapRead h c.exportsAddr ∧
    heapRead
      (exportsSnapshot (heapWriteKey (exportsSnapshot h c).1 (exportsSnapshot h c).2 k v) c).1
      (exportsSnapshot (heapWriteKey (exportsSnapshot h c).1 (exportsSnapshot h c).2 k v) c).2
      = heapRead h c.exportsAddr := by
  have hne : h.length ≠ c.exportsAddr := fun he => absurd hlt (by rw [he]; exact Nat.lt_irrefl _)
  have hfirst :
      heapRead (heapWriteKey (exportsSnapshot h c).1 (exportsSnapshot h c).2 k v) c.exportsAddr
        = heapRead h c.exportsAddr := by
    rw [exportsSnapshot, heapAlloc, heapWriteKey, heapRead, heapRead, getD_set_ne _ _ _ _ _ hne]
    exact getD_append_lt _ _ _ _ hlt
  refine ⟨hfirst, ?_⟩
  rw [exportsSnapshot, heapAlloc]
  exact (getD_append_length _ _ _).trans hfirst

/-- Concrete instance of the C9 theorem on a one-dict heap. -/
theorem exports_defensive_copy_witness :
    (⟨0⟩ : HeapContext).exportsAddr < ([[("out1", 1)]] : PyHeap Nat).length ∧
    (heapRead
       (heapWriteKey (exportsSnapshot ([[("out1", 1)]] : PyHeap Nat) ⟨0⟩).1
         (exportsSnapshot ([[("out1", 1)]] : PyHeap Nat) ⟨0⟩).2 "out3" 9) (0 : Nat)
       = heapRead ([[("out1", 1)]] : PyHeap Nat) 0 ∧
     heapRead
       (exportsSnapshot (heapWriteKey (exportsSnapshot ([[("out1", 1)]] : PyHeap Nat) ⟨0⟩).1
         (exportsSnapshot ([[("out1", 1)]] : PyHeap Nat) ⟨0⟩).2 "out3" 9) ⟨0⟩).1
       (exportsSnapshot (heapWriteKey (exportsSnapshot ([[("out1", 1)]] : PyHeap Nat) ⟨0⟩).1
         (exportsSnapshot ([[("out1", 1)]] : PyHeap Nat) ⟨0⟩).2 "out3" 9) ⟨0⟩).2
       = heapRead ([[("out1", 1)]] : PyHeap Nat) 0) :=
  ⟨by decide, exports_defensive_copy [[("out1", 1)]] ⟨0⟩ "out3" 9 (by decide)⟩

/-- Claim C4, counterexample: for the key consisting of one newline character,
`require` on an empty context fails (as the claim says), but Python's
`{key!r}` interpolation renders the newline as a backslash escape, so the
error message does not contain the literal key. -/
theorem require_literal_key_counterexample :
    requireFails emptyCtxNat newlineKey = true ∧
    requireMsgContainsKey emptyCtxNat newlineKey = false := by
  constructor
  · rfl
  · rfl

/-- Claim C4, amended: `require(k)` fails exactly when `k` is absent from the
outputs map; the error is the missing-dependency `RuntimeError` (its message
starts with the `missing required key:` marker) and its message contains the
sorted list of presently-known keys (`(none)` when empty) and — for every
key of printable ASCII characters with no backslash and not both kinds of
quote, characters `repr` keeps literal, which includes every dotted-path key
the engine uses — the literal key itself; and `require(k)` after `set(k, v)`
returns `v` without error. -/
theorem require_missing_dependency_amended {V : Type} (ctx : CapabilityContext V) (k : String)
    (v : V) (hsafe : pySafeKeyChars k = true) :
    ((∃ w, ctx.require k = Except.ok w) ↔ containsKey ctx.outputs k = true) ∧
    (∀ e, ctx.require k = Except.error e →
        listStartsWith "missing required key: ".data e.data = true ∧
        listContainsSub k.data e.data = true ∧
        listContainsSub (availableKeysStr ctx.outputs).data e.data = true) ∧
    (ctx.set k v).require k = Except.ok v := by
  refine ⟨?_, ?_, ?_⟩
  · rw [CapabilityContext.require, containsKey]
    cases hl : lookupKey ctx.outputs k with
    | none => simp
    | some w => simp
  · intro e he
    rw [CapabilityContext.require] at he
    cases hl : lookupKey ctx.outputs k with
    | some w => rw [hl] at he; exact absurd he (by simp)
    | none =>
        rw [hl] at he
        have hmsg : ("missing required key: " ++ pyReprString k ++ ". Available keys: "
            ++ availableKeysStr ctx.outputs) = e := by
          exact (Except.error.injEq _ _).mp he
        subst hmsg
        have hrepr := pyReprString_safe k hsafe
        refine ⟨?_, ?_, ?_⟩
        · rw [string_data_append, string_data_append, string_data_append,
            List.append_assoc, List.append_assoc]
          exact listStartsWith_self_append _ _
        · rw [hrepr, string_data_append, string_data_append, string_data_append]
          have hshape :
              ("missing required key: ".data
                  ++ (String.mk (pyDelim k :: k.data ++ [pyDelim k])).data
                  ++ ". Available keys: ".data ++ (availableKeysStr ctx.outputs).data)
                = ("missing required key: ".data ++ [pyDelim k])
                  ++ (k.data ++ ([pyDelim k] ++ (". Available keys: ".data
                      ++ (availableKeysStr ctx.outputs).data))) := by
            simp
          rw [hshape]
          exact listContainsSub_append_mid _ _ _
        · rw [string_data_append, string_data_append, string_data_append]
          have hshape :
              ("missing required key: ".data ++ (pyReprString k).data
                  ++ ". Available keys: ".data ++ (availableKeysStr ctx.outputs).data)
                = ("missing required key: ".data ++ (pyReprString k).data
                    ++ ". Available keys: ".data)
                  ++ ((availableKeysStr ctx.outputs).data ++ []) := by
            simp
          rw [hshape]
          exact listContainsSub_append_mid _ _ _
  · rw [CapabilityContext.require, CapabilityContext.set]
    simp only [lookupKey_dictSet_self]

/-- Concrete instance of the C4 theorem at the key `iam.task_role`. -/
theorem require_missing_dependency_amended_witness :
    pySafeKeyChars "iam.task_role" = true ∧
    (((∃ w, emptyCtxNat.require "iam.task_role" = Except.ok w)
        ↔ containsKey emptyCtxNat.outputs "iam.task_role" = true) ∧
     (∀ e, emptyCtxNat.require "iam.task_role" = Except.error e →
        listStartsWith "missing required key: ".data e.data = true ∧
        listContainsSub "iam.task_role".data e.data = true ∧
        listContainsSub (availableKeysStr emptyCtxNat.outputs).data e.data = true) ∧
     (emptyCtxNat.set "iam.task_role" 5).require "iam.task_role" = Except.ok 5) :=
  ⟨by decide, require_missing_dependency_amended emptyCtxNat "iam.task_role" 5 (by decide)⟩

theorem s3_buckets_key_ne (x y : String) : ("s3.buckets." ++ x ++ y) ≠ "iam.task_role" := by
  intro heq
  have hd := congrArg String.data heq
  rw [string_data_append, string_data_append] at hd
  have h1 : "s3.buckets.".data = 's' :: "3.buckets.".data := rfl
  have h2 : "iam.task_role".data = 'i' :: "am.task_role".data := rfl
  rw [h1, h2, List.cons_append, List.cons_append] at hd
  have hhead : 's' = 'i' := by injection hd
  exact absurd hhead (by decide)

theorem s3_bucket_step_eq (acct svc : String) (c : CapabilityContext Value)
    (tr arns : List Value) (envs : List (String × Value)) (b : BucketConfig) :
    s3_bucket_step acct svc (c, tr, arns, envs) b =
      (((c.set ("s3.buckets." ++ b.name ++ ".arn")
            (Value.attr (mkBucketValue svc acct b) "arn")).set
          ("s3.buckets." ++ b.name ++ ".name")
            (Value.attr (mkBucketValue svc acct b) "bucket")).exportValue
          ("s3_bucket_" ++ replaceChar b.name (Char.ofNat 45) (Char.ofNat 95))
          (Value.attr (mkBucketValue svc acct b) "bucket"),
       tr ++ [mkBucketValue svc acct b],
       arns ++ [Value.attr (mkBucketValue svc acct b) "arn"],
       dictSet envs ("S3_BUCKET_" ++ replaceChar b.name.toUpper (Char.ofNat 45) (Char.ofNat 95))
         (Value.attr (mkBucketValue svc acct b) "bucket")) := rfl

theorem s3_fold_spec (acct svc : String) (buckets : List BucketConfig)
    (c : CapabilityContext Value) (tr arns : List Value) (envs : List (String × Value)) :
    (buckets.foldl (s3_bucket_step acct svc) (c, tr, arns, envs)).2.1
      = tr ++ buckets.map (mkBucketValue svc acct) ∧
    (buckets.foldl (s3_bucket_step acct svc) (c, tr, arns, envs)).2.2.1
      = arns ++ buckets.map (fun b => Value.attr (mkBucketValue svc acct b) "arn") ∧
    lookupKey (buckets.foldl (s3_bucket_step acct svc) (c, tr, arns, envs)).1.outputs
      "iam.task_role" = lookupKey c.outputs "iam.task_role" := by
  induction buckets generalizing c tr arns envs with
  | nil => simp
  | cons b bs ih =>
      rw [List.foldl_cons, s3_bucket_step_eq]
      obtain ⟨ih1, ih2, ih3⟩ := ih _ _ _ _
      refine ⟨?_, ?_, ?_⟩
      · rw [ih1]
        simp
      · rw [ih2]
        simp
      · rw [ih3]
        rw [CapabilityContext.exportValue, CapabilityContext.set, CapabilityContext.set]
        simp only
        rw [lookupKey_dictSet_ne _ _ _ _ (s3_buckets_key_ne b.name ".name"),
          lookupKey_dictSet_ne _ _ _ _ (s3_buckets_key_ne b.name ".arn")]

theorem filter_rolePolicy_map_mkBucket (svc acct : String) (l : List BucketConfig) :
    (l.map (mkBucketValue svc acct)).filter isRolePolicyRes = [] := by
  induction l with
  | nil => rfl
  | cons x xs ih =>
      have hx : isRolePolicyRes (mkBucketValue svc acct x) = false := rfl
      simp [List.filter_cons, hx, ih]

theorem createdBucketArns_map_mkBucket (svc acct : String) (l : List BucketConfig) :
    createdBucketArns (l.map (mkBucketValue svc acct))
      = l.map (fun b => Value.attr (mkBucketValue svc acct b) "arn") := by
  induction l with
  | nil => rfl
  | cons x xs ih =>
      rw [List.map_cons, createdBucketArns, List.filterMap_cons]
      rw [createdBucketArns] at ih
      have hx :
          (match mkBucketValue svc acct x with
            | Value.res "create_s3_bucket" args =>
                some (Value.attr (Value.res "create_s3_bucket" args) "arn")
            | _ => Option.none)
          = some (Value.attr (mkBucketValue svc acct x) "arn") := rfl
      rw [hx, ih, List.map_cons]

theorem createdBucketArns_append_policy (tr : List Value) (role : Value)
    (arns : List Value) (svc lbl : String) :
    createdBucketArns (tr ++ [grant_s3_access role arns svc lbl]) = createdBucketArns tr := by
  rw [createdBucketArns, createdBucketArns, List.filterMap_append]
  simp [grant_s3_access]

theorem policyResources_grant (role : Value) (arns : List Value) (svc lbl : String) :
    policyResources (grant_s3_access role arns svc lbl)
      = Value.list (arns ++ arns.map Value.starSuffix) := rfl

theorem policyRole_grant (role : Value) (arns : List Value) (svc lbl : String) :
    policyRole (grant_s3_access role arns svc lbl) = Value.attr role "name" := rfl

theorem s3_handler_trace (ctx : CapabilityContext Value) (b : BucketConfig)
    (bs : List BucketConfig)
    (h1 : (ctx.get "iam.task_role" Value.null).isNull = false) :
    (s3_handler ⟨b :: bs⟩ ctx).2
      = (b :: bs).map (mkBucketValue ctx.config.service_name ctx.infra.aws_account_id)
        ++ [grant_s3_access (ctx.get "iam.task_role" Value.null)
              ((b :: bs).map (fun x =>
                Value.attr (mkBucketValue ctx.config.service_name ctx.infra.aws_account_id x)
                  "arn"))
              ctx.config.service_name "task"] := by
  obtain ⟨hf1, hf2, hf3⟩ := s3_fold_spec ctx.infra.aws_account_id ctx.config.service_name
    (b :: bs) ctx [] [] []
  have hget : ∀ arnsV envsV,
      (((((b :: bs).foldl
            (s3_bucket_step ctx.infra.aws_account_id ctx.config.service_name)
            (ctx, [], [], [])).1.set "s3.bucket_arns" arnsV).set
          "s3.bucket_env_vars" envsV).get "iam.task_role" Value.null)
        = ctx.get "iam.task_role" Value.null := by
    intro arnsV envsV
    simp only [CapabilityContext.get, CapabilityContext.set]
    rw [lookupKey_dictSet_ne _ _ _ _ (by decide), lookupKey_dictSet_ne _ _ _ _ (by decide), hf3]
  simp only [s3_handler, List.isEmpty_cons, Bool.false_eq_true, if_false, hget, h1, hf1, hf2,
    List.nil_append]

/-- Claim C6: when `iam.task_role` is present in the context and the bucket
configuration is non-empty, the `s3` handler attaches exactly one IAM
policy; that policy is attached to that task role (its `role` argument is
the name attribute of the `iam.task_role` value read from the context), and
its resource list references exactly the ARNs of the buckets the handler
itself created in this run — each ARN plus its `/*` object form. -/
theorem s3_task_role_single_scoped_policy (ctx : CapabilityContext Value) (cfgS3 : S3Config)
    (h1 : (ctx.get "iam.task_role" Value.null).isNull = false)
    (h2 : cfgS3.buckets ≠ []) :
    ((s3_handler cfgS3 ctx).2.filter isRolePolicyRes).length = 1 ∧
    ∀ p ∈ (s3_handler cfgS3 ctx).2.filter isRolePolicyRes,
      policyRole p = Value.attr (ctx.get "iam.task_role" Value.null) "name" ∧
      policyResources p = Value.list
        (createdBucketArns (s3_handler cfgS3 ctx).2
          ++ (createdBucketArns (s3_handler cfgS3 ctx).2).map Value.starSuffix) := by
  obtain ⟨bks⟩ := cfgS3
  cases bks with
  | nil => exact absurd rfl h2
  | cons b bs =>
      have htrace := s3_handler_trace ctx b bs h1
      have hgrant : isRolePolicyRes (grant_s3_access (ctx.get "iam.task_role" Value.null)
          ((b :: bs).map (fun x =>
            Value.attr (mkBucketValue ctx.config.service_name ctx.infra.aws_account_id x) "arn"))
          ctx.config.service_name "task") = true := rfl
      have hfilter : (s3_handler ⟨b :: bs⟩ ctx).2.filter isRolePolicyRes
          = [grant_s3_access (ctx.get "iam.task_role" Value.null)
              ((b :: bs).map (fun x =>
                Value.attr (mkBucketValue ctx.config.service_name ctx.infra.aws_account_id x)
                  "arn"))
              ctx.config.service_name "task"] := by
        rw [htrace, List.filter_append, filter_rolePolicy_map_mkBucket, List.nil_append,
          List.filter_cons, if_pos hgrant, List.filter_nil]
      have harns : createdBucketArns (s3_handler ⟨b :: bs⟩ ctx).2
          = (b :: bs).map (fun x =>
              Value.attr (mkBucketValue ctx.config.service_name ctx.infra.aws_account_id x)
                "arn") := by
        rw [htrace, createdBucketArns_append_policy, createdBucketArns_map_mkBucket]
      refine ⟨by rw [hfilter]; rfl, ?_⟩
      intro p hp
      rw [hfilter] at hp
      have hpe := List.mem_singleton.mp hp
      rw [hpe, harns]
      exact ⟨policyRole_grant _ _ _ _, policyResources_grant _ _ _ _⟩

/-- Concrete instance of the C6 theorem: one bucket, task role present. -/
theorem s3_task_role_single_scoped_policy_witness :
    ((demoTaskCtx.get "iam.task_role" Value.null).isNull = false) ∧
    ((⟨[demoBucket]⟩ : S3Config).buckets ≠ []) ∧
    (((s3_handler ⟨[demoBucket]⟩ demoTaskCtx).2.filter
        isRolePolicyRes).length = 1 ∧
     ∀ p ∈ (s3_handler ⟨[demoBucket]⟩ demoTaskCtx).2.filter
        isRolePolicyRes,
       policyRole p = Value.attr (demoTaskCtx.get "iam.task_role" Value.null) "name" ∧
       policyResources p = Value.list
         (createdBucketArns (s3_handler ⟨[demoBucket]⟩ demoTaskCtx).2
           ++ (createdBucketArns
                (s3_handler ⟨[demoBucket]⟩ demoTaskCtx).2).map
              Value.starSuffix)) :=
  ⟨rfl, List.cons_ne_nil _ _,
   s3_task_role_single_scoped_policy demoTaskCtx ⟨[demoBucket]⟩ rfl
     (List.cons_ne_nil _ _)⟩

/-- Claim C1: pre-flight `requires` validation: whenever some active capability's
registered `requires` list contains a name absent from the active set, the
orchestration run fails during validation — the result is an error, so the
Foundation provisioner contributes nothing and no capability handler's
effects appear in any run output. -/
theorem requires_validation_fails {H : Type} (reg : Registry H)
    (runHandler : H → Value → CapabilityContext Value → CapabilityContext Value × List Value)
    (sections : List (String × Value)) (ctx0 : CapabilityContext Value)
    (n r : String) (d : CapabilityDef H)
    (h1 : n ∈ activeNames reg sections)
    (h2 : lookupKey reg n = some d)
    (h3 : r ∈ d.requires)
    (h4 : ¬ r ∈ activeNames reg sections) :
    ∃ msg, orchestrate reg runHandler sections ctx0 = Except.error msg := by
  have hne : unmetRequirement (activeNames reg sections) reg ≠ Option.none := by
    intro hnone
    rw [unmetRequirement] at hnone
    have hall := List.findSome?_eq_none_iff.mp hnone
    have hn := hall n h1
    rw [h2] at hn
    simp only [Option.map_eq_none'] at hn
    have hnotp := List.find?_eq_none.mp hn r h3
    apply hnotp
    have hcf : (activeNames reg sections).contains r = false := by
      simp [h4]
    rw [hcf]
    rfl
  obtain ⟨nr, hnr⟩ := Option.ne_none_iff_exists'.mp hne
  refine ⟨"capability " ++ pyReprString nr.1 ++ " requires " ++ pyReprString nr.2
    ++ ", which is not declared", ?_⟩
  simp only [orchestrate]
  rw [hnr]

/-- Concrete instance of the C1 theorem: declared set containing exactly
`lambda`, whose registered requires list names the undeclared `storage`. -/
theorem requires_validation_fails_witness :
    ("lambda" ∈ activeNames registeredCapabilities [("lambda", Value.dict [])]) ∧
    (lookupKey registeredCapabilities "lambda"
       = some ⟨HandlerTag.lambdaFunctions, Phase.COMPUTE, ["storage"]⟩) ∧
    ("storage" ∈
      (⟨HandlerTag.lambdaFunctions, Phase.COMPUTE, ["storage"]⟩ : CapabilityDef HandlerTag).requires) ∧
    (¬ "storage" ∈ activeNames registeredCapabilities [("lambda", Value.dict [])]) ∧
    (∃ msg, orchestrate registeredCapabilities trivialRunHandler [("lambda", Value.dict [])]
        demoCtx = Except.error msg) :=
  ⟨by decide, by decide, by decide, by decide,
   requires_validation_fails registeredCapabilities trivialRunHandler [("lambda", Value.dict [])]
     demoCtx "lambda" "storage" ⟨HandlerTag.lambdaFunctions, Phase.COMPUTE, ["storage"]⟩
     (by decide) (by decide) (by decide) (by decide)⟩

end PlatformEngine

